import Mathlib

/-!
Shallow embedding of the Ansible module `library/zerotier.py` of
`ansible-role-zerotier`: the reconciliation of a host's ZeroTier network
memberships and per-member configuration against a desired `networks`
mapping. HTTP endpoints are modelled by the status codes and bodies they
return; `module.fail_json` and uncaught Python exceptions are modelled as
an `Except` error.
-/

set_option autoImplicit false

namespace ZeroTier

/-- JSON-like values stored in per-member configuration bags
(the `config` sub-dict of a desired network entry). -/
inductive JVal where
  | bool (b : Bool)
  | num (n : Int)
  | str (s : String)
  deriving DecidableEq

/-- A Python dict with string keys, embedded as an association list.
Lookup returns the first binding of a key; dicts built from YAML or JSON
have each key bound once. -/
abbrev Dict (α : Type) := List (String × α)

namespace Dict

variable {α : Type}

/-- Python `d[k]` as an option: `some` exactly when the key is present
(a raw access on `none` is a `KeyError` at the use site). -/
def lookup (d : Dict α) (k : String) : Option α :=
  match d with
  | [] => none
  | (k₀, v) :: rest => if k₀ = k then some v else lookup rest k

/-- Python `d[k] = v`: replace the first binding of `k`, or append one. -/
def setKey (d : Dict α) (k : String) (v : α) : Dict α :=
  match d with
  | [] => [(k, v)]
  | (k₀, v₀) :: rest => if k₀ = k then (k, v) :: rest else (k₀, v₀) :: setKey rest k v

/-- Python `d.update(other)`: assign every binding of `other` into `d`, in order. -/
def update (d other : Dict α) : Dict α :=
  other.foldl (fun acc kv => setKey acc kv.1 kv.2) d

/-- Python `d.keys()`, in binding order. -/
def keys (d : Dict α) : List String := d.map Prod.fst

/-- Python `d1 == d2` on dicts: key-wise equality of lookups. -/
def eqb [DecidableEq α] (d₁ d₂ : Dict α) : Bool :=
  (keys d₁ ++ keys d₂).all fun k => decide (lookup d₁ k = lookup d₂ k)

end Dict

/-- One desired network entry `self.networks[network]`. The `apikey` and
`config` keys are modelled as always-present fields (every claim under
study exercises them present); the remaining string-valued entries of the
YAML dict (such as `nodedescription`) stay a dict, because the source reads
the description with a raw key access that can miss (line 250). -/
structure MemberSpec where
  apikey : String
  config : Dict JVal
  extra : Dict String
  deriving DecidableEq

/-- The member record returned by
`GET /api/network/{network}/member/{nodeid}`, restricted to the keys the
module reads or writes: `config`, `name`, `description`. -/
structure RemoteMemberRecord where
  config : Dict JVal
  name : String
  description : String
  deriving DecidableEq

/-- How a run aborts: `failJson` embeds `module.fail_json` (the module
exits failed with the given message); `keyError` an uncaught Python
`KeyError` on the given key; `typeError` an uncaught `TypeError`
(subscripting the `None` fall-through of `getNodeConfig`). -/
inductive Abort where
  | failJson (msg : String)
  | keyError (key : String)
  | typeError
  deriving DecidableEq

/-- A state-mutating call the run performs: a local join (POST
`/network/{n}`), a local leave (DELETE `/network/{n}`), or a remote member
configuration write (`setNodeConfig`). -/
inductive Action where
  | join (n : String)
  | leave (n : String)
  | write (n : String) (r : RemoteMemberRecord)
  deriving DecidableEq

/-- The response of the local `/status` endpoint, restricted to the keys
the module reads: `online` and `address`. -/
structure StatusResp where
  online : Bool
  address : String
  deriving DecidableEq

/-- The number of `time.sleep(2)` calls made by the wait loop of
`getZeroTierStatus` (lines 109–115): `run_count` starts at `0`; while
`run_count <= max_run_wait`, the loop tests `resp_json['online']` (setting
`run_count = max_run_wait` when true), increments `run_count` and sleeps.
Nothing in the body reads the endpoint again. -/
def waitLoopSleeps (online : Bool) (maxRunWait runCount : Nat) : Nat :=
  if runCount ≤ maxRunWait then
    1 + waitLoopSleeps online maxRunWait ((if online then maxRunWait else runCount) + 1)
  else 0
termination_by maxRunWait + 1 - runCount
decreasing_by simp_wf; split <;> omega

/-- Embeds `ZeroTierNode.getZeroTierStatus` (lines 93–117) against a stream
of endpoint states: `endpoint i` is the response the local `/status`
endpoint would give to its `i`-th read. The source performs a single read
(line 101) before the wait loop and none inside it, so the returned value
is the first response, together with the number of endpoint reads performed
(one) and the number of `time.sleep(2)` calls made by the loop. -/
def getZeroTierStatus (endpoint : Nat → StatusResp) : StatusResp × Nat × Nat :=
  (endpoint 0, 1, waitLoopSleeps (endpoint 0).online 10 0)

/-- Python `list(set(xs) - set(ys))`, with first-occurrence order fixed for
the embedding (the source's set iteration order is unspecified). -/
def pySetDiff (xs ys : List String) : List String :=
  xs.dedup.filter fun x => decide (x ∉ ys)

/-- Embeds `ZeroTierNode.compareTargetJoinedNetworks` (lines 258–261) as a
pure function of the joined-network list and the keys of the desired
mapping. Returns `(add_networks, remove_networks)`. -/
def compareTargetJoinedNetworks (joined desiredKeys : List String) :
    List String × List String :=
  (pySetDiff desiredKeys joined, pySetDiff joined desiredKeys)

/-- Embeds the status-code dispatch of `ZeroTierNode.checkAPIKey`
(lines 154–160): 403 and 404 hit `fail_json`; 200 returns `True`; any
other code falls off the function, returning Python `None` (here `none`). -/
def checkAPIKeyResp (code : Nat) : Except Abort (Option Bool) :=
  if code = 403 then .error (.failJson "Unable to authenticate with ZeroTier API!")
  else if code = 404 then .error (.failJson "ZeroTier network does not exist")
  else if code = 200 then .ok (some true)
  else .ok none

/-- Embeds the status-code dispatch of `ZeroTierNode.getNodeConfig`
(lines 223–230): 403 and 404 hit `fail_json`; 200 parses and returns the
body; any other code falls off the function, returning `None`. -/
def getNodeConfigResp (code : Nat) (body : RemoteMemberRecord) :
    Except Abort (Option RemoteMemberRecord) :=
  if code = 403 then .error (.failJson "Unable to authenticate with ZeroTier API!")
  else if code = 404 then .error (.failJson "ZeroTier network does not exist")
  else if code = 200 then .ok (some body)
  else .ok none

/-- Embeds the status-code dispatch of `ZeroTierNode.setNodeConfig`
(lines 206–212). -/
def setNodeConfigResp (code : Nat) : Except Abort (Option Bool) :=
  if code = 403 then .error (.failJson "Unable to authenticate with ZeroTier API!")
  else if code = 404 then .error (.failJson "ZeroTier network or node does not exist")
  else if code = 200 then .ok (some true)
  else .ok none

/-- Responses of the local and remote services during one run. Local join
and leave calls are modelled as succeeding with status 200 (no claim under
study exercises their failure). The source reads the joined-network list
once per phase: `joinedBefore` is the read feeding
`compareTargetJoinedNetworks`, `joinedAfter` the re-read on line 299 after
the propagation sleep. -/
structure RunEnv where
  joinedBefore : List String
  joinedAfter : List String
  accessCode : String → Nat
  memberGetCode : String → Nat
  memberRecord : String → RemoteMemberRecord
  setCode : String → Nat

/-- Embeds `ZeroTierNode.checkAPIKey` (lines 147–162): line 152 subscripts
`self.networks[network]` outside the `try`, raising `KeyError` when the
network is not a key of the desired mapping. -/
def checkAPIKey (networks : Dict MemberSpec) (env : RunEnv) (n : String) :
    Except Abort (Option Bool) :=
  match Dict.lookup networks n with
  | none => .error (.keyError n)
  | some _ => checkAPIKeyResp (env.accessCode n)

/-- Embeds `ZeroTierNode.getNodeConfig` (lines 216–232): line 221
subscripts `self.networks[network]` outside the `try`, raising `KeyError`
when the network is not a key of the desired mapping. -/
def getNodeConfig (networks : Dict MemberSpec) (env : RunEnv) (n : String) :
    Except Abort (Option RemoteMemberRecord) :=
  match Dict.lookup networks n with
  | none => .error (.keyError n)
  | some _ => getNodeConfigResp (env.memberGetCode n) (env.memberRecord n)

/-- Embeds the diff-and-patch body of `ZeroTierNode.buildNodeConfig`
(lines 237–256), after the fetch of `current_full_node_config`. In the
source, `node_config` (line 238) is the very dict object stored at
`current_full_node_config['config']`, so `node_config.update(...)`
(line 239) also updates `current_full_node_config['config']`; the embedding
therefore places the merged dict in both positions before the comparison on
line 242. Returns the `changed` flag, the final record, and the record
passed to `setNodeConfig` (line 256), if the write fires. -/
def buildNodeConfig (nodename : String) (spec : MemberSpec)
    (fetched : RemoteMemberRecord) (changed₀ : Bool) :
    Except Abort (Bool × RemoteMemberRecord × Option RemoteMemberRecord) :=
  let node_config := Dict.update fetched.config spec.config
  let cur₀ : RemoteMemberRecord := { fetched with config := node_config }
  -- line 242: `node_config != current_full_node_config['config']`
  let st₁ : Bool × RemoteMemberRecord :=
    if Dict.eqb node_config cur₀.config then (changed₀, cur₀)
    else (true, { cur₀ with config := node_config })
  -- line 246: `current_full_node_config['name'] != self.nodename`
  let st₂ : Bool × RemoteMemberRecord :=
    if st₁.2.name = nodename then st₁ else (true, { st₁.2 with name := nodename })
  -- line 250: `self.networks[network]['nodedescription:']` — raw key access
  match Dict.lookup spec.extra "nodedescription:" with
  | none => .error (.keyError "nodedescription:")
  | some desc =>
    let st₃ : Bool × RemoteMemberRecord :=
      if st₂.2.description = desc then st₂
      else (true, { st₂.2 with description := desc })
    .ok (st₃.1, st₃.2, if st₃.1 then some st₃.2 else none)

/-- Embeds `ZeroTierNode.buildNodeConfig` (lines 234–256) including the
fetch (line 235) and the conditional write (lines 255–256). Returns the new
`changed` flag and the record written, if a write was issued. -/
def buildNodeConfigRun (networks : Dict MemberSpec) (env : RunEnv)
    (nodename n : String) (changed₀ : Bool) :
    Except Abort (Bool × Option RemoteMemberRecord) :=
  match getNodeConfig networks env n with
  | .error a => .error a
  | .ok none => .error .typeError
  | .ok (some fetched) =>
    match Dict.lookup networks n with
    | none => .error (.keyError n)
    | some spec =>
      match buildNodeConfig nodename spec fetched changed₀ with
      | .error a => .error a
      | .ok (c, _, none) => .ok (c, none)
      | .ok (c, _, some r) =>
        match setNodeConfigResp (env.setCode n) with
        | .error a => .error a
        | .ok _ => .ok (c, some r)

/-- The join loop of `main` (lines 286–288): check the API key, then join.
The trace holds the joins performed before any abort. -/
def joinLoop (networks : Dict MemberSpec) (env : RunEnv) :
    List String → List Action × Option Abort
  | [] => ([], none)
  | n :: rest =>
    match checkAPIKey networks env n with
    | .error a => ([], some a)
    | .ok _ =>
      (Action.join n :: (joinLoop networks env rest).1, (joinLoop networks env rest).2)

/-- The leave loop of `main` (lines 291–293): check the API key, then
leave. The trace holds the leaves performed before any abort. -/
def leaveLoop (networks : Dict MemberSpec) (env : RunEnv) :
    List String → List Action × Option Abort
  | [] => ([], none)
  | n :: rest =>
    match checkAPIKey networks env n with
    | .error a => ([], some a)
    | .ok _ =>
      (Action.leave n :: (leaveLoop networks env rest).1, (leaveLoop networks env rest).2)

/-- The attribute loop of `main` (lines 299–300): `buildNodeConfig` for
every network in the re-read joined list, threading
`self.result['changed']`. -/
def attrLoop (networks : Dict MemberSpec) (env : RunEnv) (nodename : String) :
    List String → Bool → List Action × Except Abort Bool
  | [], c => ([], .ok c)
  | n :: rest, c =>
    match buildNodeConfigRun networks env nodename n c with
    | .error a => ([], .error a)
    | .ok (c₁, some r) =>
      (Action.write n r :: (attrLoop networks env nodename rest c₁).1,
       (attrLoop networks env nodename rest c₁).2)
    | .ok (c₁, none) => attrLoop networks env nodename rest c₁

/-- The local `/status` endpoint of a node that is still initializing at
the first read and online from the second read on. -/
def onlineAfterFirstRead : Nat → StatusResp :=
  fun i => ⟨decide (1 ≤ i), "93afae2a2d"⟩

/-- A remote member record whose fields already agree with the desired
state of `specG` under node name `"N"`. -/
def recG : RemoteMemberRecord := ⟨[], "N", "D"⟩

/-- A desired network entry with an empty config bag and a description
supplied under the key `nodedescription:` (so the raw access on line 250
succeeds). -/
def specG : MemberSpec := ⟨"k", [], [("nodedescription:", "D")]⟩

/-- Embeds `main` (lines 264–306): compare target and joined networks, join
loop, leave loop, propagation sleep, attribute loop, verdict. Returns the
trace of join/leave/write calls performed and either the abort or the final
`changed` verdict. `self.result['changed']` starts `False` (line 84) and is
written only inside `buildNodeConfig`. -/
def runMain (env : RunEnv) (nodename : String) (networks : Dict MemberSpec) :
    List Action × Except Abort Bool :=
  match joinLoop networks env
      (compareTargetJoinedNetworks env.joinedBefore (Dict.keys networks)).1 with
  | (acts₁, some a) => (acts₁, .error a)
  | (acts₁, none) =>
    match leaveLoop networks env
        (compareTargetJoinedNetworks env.joinedBefore (Dict.keys networks)).2 with
    | (acts₂, some a) => (acts₁ ++ acts₂, .error a)
    | (acts₂, none) =>
      (acts₁ ++ acts₂ ++ (attrLoop networks env nodename env.joinedAfter false).1,
       (attrLoop networks env nodename env.joinedAfter false).2)

/-- A run over two desired networks `G2`, `G3` with `G1`, `G2` joined, in
which the per-network credential of `G3` is rejected (403) on the access
check. -/
def envAuth : RunEnv :=
  ⟨["G1", "G2"], [], fun n => if n = "G3" then 403 else 200,
   fun _ => 200, fun _ => recG, fun _ => 200⟩

/-- The desired mapping of the 403 scenario: `G2` and `G3`. -/
def netsAuth : Dict MemberSpec := [("G2", specG), ("G3", specG)]

/-- A run that joins `G3` (not joined before, desired) and then finds the
remote record of `G3` already in agreement with the desired state. -/
def envJoinOnly : RunEnv :=
  ⟨[], ["G3"], fun _ => 200, fun _ => 200, fun _ => recG, fun _ => 200⟩

/-- The desired mapping of the join-only scenario: `G3` alone. -/
def netsJoinOnly : Dict MemberSpec := [("G3", specG)]

/-- A run whose post-wait joined list contains `G1` while the desired
mapping is empty. -/
def envStray : RunEnv :=
  ⟨[], ["G1"], fun _ => 200, fun _ => 200, fun _ => recG, fun _ => 200⟩

namespace Dict

variable {α : Type}

/-- Lookup after a single Python-style assignment. -/
theorem lookup_setKey (d : Dict α) (k k' : String) (v : α) :
    lookup (setKey d k v) k' = if k = k' then some v else lookup d k' := by
  induction d with
  | nil => simp [setKey, lookup]
  | cons kv rest ih =>
    obtain ⟨k₀, v₀⟩ := kv
    by_cases h : k₀ = k
    · subst h
      by_cases h' : k₀ = k' <;> simp [setKey, lookup, h']
    · by_cases h' : k₀ = k'
      · subst h'
        have hne : ¬ k = k₀ := fun e => h e.symm
        simp [setKey, lookup, h, hne]
      · simp [setKey, lookup, h, h', ih]

/-- A key is absent from a dict exactly when lookup misses. -/
theorem lookup_eq_none_iff (d : Dict α) (k : String) :
    lookup d k = none ↔ k ∉ keys d := by
  induction d with
  | nil => simp [lookup, keys]
  | cons kv rest ih =>
    obtain ⟨k₀, v₀⟩ := kv
    by_cases h : k₀ = k
    · subst h; simp [lookup, keys]
    · have hne : ¬ k = k₀ := fun e => h e.symm
      simp [lookup, keys, h, hne, ih]

/-- Key-wise dict equality is reflexive. -/
theorem eqb_refl [DecidableEq α] (d : Dict α) : eqb d d = true := by
  simp [eqb, List.all_eq_true]

/-- Keys never assigned by `update`'s second argument keep their binding. -/
theorem lookup_update_of_none (remote desired : Dict α) (k : String)
    (h : lookup desired k = none) :
    lookup (update remote desired) k = lookup remote k := by
  induction desired generalizing remote with
  | nil => simp [update]
  | cons kv rest ih =>
    obtain ⟨k₀, v₀⟩ := kv
    have hstep : update remote ((k₀, v₀) :: rest) = update (setKey remote k₀ v₀) rest := rfl
    by_cases hk : k₀ = k
    · subst hk; simp [lookup] at h
    · simp only [lookup, if_neg hk] at h
      rw [hstep, ih _ h, lookup_setKey, if_neg hk]

/-- Keys assigned by `update`'s second argument take its value (the second
argument binds each key once). -/
theorem lookup_update_of_some (remote desired : Dict α) (k : String) (v : α)
    (hnd : (keys desired).Nodup) (h : lookup desired k = some v) :
    lookup (update remote desired) k = some v := by
  induction desired generalizing remote with
  | nil => simp [lookup] at h
  | cons kv rest ih =>
    obtain ⟨k₀, v₀⟩ := kv
    have hstep : update remote ((k₀, v₀) :: rest) = update (setKey remote k₀ v₀) rest := rfl
    have hnd' : (keys rest).Nodup := by
      simpa [keys] using hnd.of_cons
    by_cases hk : k₀ = k
    · subst hk
      simp only [lookup, if_true, eq_self_iff_true, Option.some.injEq] at h
      subst h
      have hmem : k₀ ∉ keys rest := by
        have h₂ := hnd
        simp only [keys, List.map_cons] at h₂
        exact (List.nodup_cons.mp h₂).1
      have hnone : lookup rest k₀ = none := (lookup_eq_none_iff rest k₀).mpr hmem
      rw [hstep, lookup_update_of_none _ _ _ hnone, lookup_setKey, if_pos rfl]
    · simp only [lookup, if_neg hk] at h
      rw [hstep, ih _ hnd' h]

end Dict

/-- When the description key is absent, the diff-and-patch body aborts with
the missing-key error before reaching the write. -/
theorem buildNodeConfig_keyError (nodename : String) (spec : MemberSpec)
    (fetched : RemoteMemberRecord) (c₀ : Bool)
    (h : Dict.lookup spec.extra "nodedescription:" = none) :
    buildNodeConfig nodename spec fetched c₀ = .error (.keyError "nodedescription:") := by
  unfold buildNodeConfig
  rw [h]

/-- Normal form of the diff-and-patch body when the description key is
present: the config-bag comparison on line 242 compares the merged dict
with itself (aliasing), so the resulting `changed` flag is the incoming
flag joined with the name and description mismatches only, and the write
fires exactly when that flag is set. -/
theorem buildNodeConfig_char (nodename : String) (spec : MemberSpec)
    (fetched : RemoteMemberRecord) (c₀ : Bool) (desc : String)
    (hd : Dict.lookup spec.extra "nodedescription:" = some desc) :
    buildNodeConfig nodename spec fetched c₀ =
      .ok (c₀ || decide (fetched.name ≠ nodename) || decide (fetched.description ≠ desc),
           ⟨Dict.update fetched.config spec.config, nodename, desc⟩,
           if (c₀ || decide (fetched.name ≠ nodename) || decide (fetched.description ≠ desc)) = true
           then some ⟨Dict.update fetched.config spec.config, nodename, desc⟩ else none) := by
  unfold buildNodeConfig
  rw [hd]
  by_cases hn : fetched.name = nodename <;> by_cases hdd : fetched.description = desc <;>
    simp [Dict.eqb_refl, hn, hdd]

/-- Claim C9: for every desired network entry that does not contain the
literal key `nodedescription:` (with trailing colon), the description
comparison of `buildNodeConfig` fails with a missing-key error on that
literal key instead of comparing the documented `nodedescription` field. -/
theorem C9_missing_description_key (nodename : String) (spec : MemberSpec)
    (fetched : RemoteMemberRecord) (c₀ : Bool)
    (h : Dict.lookup spec.extra "nodedescription:" = none) :
    buildNodeConfig nodename spec fetched c₀ = .error (.keyError "nodedescription:") := by
  unfold buildNodeConfig
  rw [h]

/-- Witness for C9: a desired entry shaped as in the module's own
documentation (key `nodedescription`, no trailing colon) hits the
missing-key error. -/
theorem C9_missing_description_key_witness :
    Dict.lookup ([("nodedescription", "someserver")] : Dict String) "nodedescription:" = none ∧
    buildNodeConfig "zz12345" ⟨"somekey", [], [("nodedescription", "someserver")]⟩
        ⟨[], "zz12345", "someserver"⟩ false = .error (.keyError "nodedescription:") :=
  ⟨by decide,
   C9_missing_description_key "zz12345" ⟨"somekey", [], [("nodedescription", "someserver")]⟩
     ⟨[], "zz12345", "someserver"⟩ false (by decide)⟩

/-- Claim C5: the attribute-bag merge (`dict.update` of the desired config
into the fetched config, line 239) is a key-wise union with desired state
as last writer: keys bound by the desired bag take the desired value, and
remote-only keys keep their remote value. -/
theorem C5_merge_last_writer_wins {α : Type} (remote desired : Dict α)
    (k : String) (hnd : (Dict.keys desired).Nodup) :
    (∀ v, Dict.lookup desired k = some v →
        Dict.lookup (Dict.update remote desired) k = some v) ∧
    (Dict.lookup desired k = none →
        Dict.lookup (Dict.update remote desired) k = Dict.lookup remote k) :=
  ⟨fun v h => Dict.lookup_update_of_some remote desired k v hnd h,
   fun h => Dict.lookup_update_of_none remote desired k h⟩

/-- Witness for C5: merging the desired bag `[a ↦ 1]` into the remote bag
`[a ↦ 0, b ↦ 2]` yields `1` at `a` (overwrite) and the remote value at `b`
(remote-only keys survive). -/
theorem C5_merge_last_writer_wins_witness :
    (Dict.keys ([("a", JVal.num 1)] : Dict JVal)).Nodup ∧
    Dict.lookup ([("a", JVal.num 1)] : Dict JVal) "a" = some (JVal.num 1) ∧
    Dict.lookup (Dict.update [("a", JVal.num 0), ("b", JVal.num 2)] [("a", JVal.num 1)]) "a" =
      some (JVal.num 1) ∧
    Dict.lookup ([("a", JVal.num 1)] : Dict JVal) "b" = none ∧
    Dict.lookup (Dict.update [("a", JVal.num 0), ("b", JVal.num 2)] [("a", JVal.num 1)]) "b" =
      Dict.lookup [("a", JVal.num 0), ("b", JVal.num 2)] "b" :=
  ⟨by decide, by decide,
   (C5_merge_last_writer_wins [("a", JVal.num 0), ("b", JVal.num 2)]
      [("a", JVal.num 1)] "a" (by decide)).1 (JVal.num 1) (by decide),
   by decide,
   (C5_merge_last_writer_wins [("a", JVal.num 0), ("b", JVal.num 2)]
      [("a", JVal.num 1)] "b" (by decide)).2 (by decide)⟩

/-- Counterexample to claim C1 as stated: at the start of a run
(`changed = False`), a group whose merged attribute bag differs key-wise
from the fetched bag — while name and description match — issues no write
at all, because line 238 binds `node_config` to the same dict object as
`current_full_node_config['config']` and the comparison on line 242 runs
after the in-place merge. The claim demands a write here. -/
theorem C1_write_gate_counterexample :
    Dict.eqb (Dict.update [("a", JVal.num 0), ("b", JVal.num 2)] [("a", JVal.num 1)])
        [("a", JVal.num 0), ("b", JVal.num 2)] = false ∧
    buildNodeConfig "N" ⟨"k", [("a", JVal.num 1)], [("nodedescription:", "D")]⟩
        ⟨[("a", JVal.num 0), ("b", JVal.num 2)], "N", "D"⟩ false =
      .ok (false, ⟨[("a", JVal.num 1), ("b", JVal.num 2)], "N", "D"⟩, none) :=
  ⟨by decide, by rfl⟩

/-- Claim C1 (amended): a configuration write is issued for a group iff the
run's accumulated `changed` flag is true after that group's comparisons,
and the flag after the comparisons is the incoming flag joined with the
display-name and description mismatches only: a difference present only in
the merged attribute bag never triggers a write (line 242 compares the
merged dict with itself), while a flag already set by an earlier group
forces a write even when every compared field of this group matches. -/
theorem C1_write_gate (nodename : String) (spec : MemberSpec)
    (fetched : RemoteMemberRecord) (c₀ : Bool) (desc : String) (c : Bool)
    (r : RemoteMemberRecord) (w : Option RemoteMemberRecord)
    (hd : Dict.lookup spec.extra "nodedescription:" = some desc)
    (h : buildNodeConfig nodename spec fetched c₀ = .ok (c, r, w)) :
    (w.isSome = true ↔ c = true) ∧
    (c = true ↔ (c₀ = true ∨ fetched.name ≠ nodename ∨ fetched.description ≠ desc)) := by
  rw [buildNodeConfig_char nodename spec fetched c₀ desc hd] at h
  simp only [Except.ok.injEq, Prod.mk.injEq] at h
  obtain ⟨hc, hr, hw⟩ := h
  subst hc
  subst hw
  constructor
  · by_cases hb : (c₀ || decide (fetched.name ≠ nodename) ||
        decide (fetched.description ≠ desc)) = true <;> simp [hb]
  · simp [Bool.or_eq_true, decide_eq_true_eq, or_assoc]

/-- Membership in the embedded Python set difference. -/
theorem mem_pySetDiff (xs ys : List String) (x : String) :
    x ∈ pySetDiff xs ys ↔ x ∈ xs ∧ x ∉ ys := by
  simp [pySetDiff, List.mem_filter, List.mem_dedup]

/-- The embedded Python set difference is the finite-set difference. -/
theorem pySetDiff_toFinset (xs ys : List String) :
    (pySetDiff xs ys).toFinset = xs.toFinset \ ys.toFinset := by
  ext x
  simp [mem_pySetDiff]

/-- Claim C2: the set reconciler is a pure function of the actual and
desired group sets returning `toJoin = desired − actual` and
`toLeave = actual − desired`; in particular actual `G1, G2` and desired
`G2, G3` give `toJoin = G3` and `toLeave = G1`. -/
theorem C2_set_reconciler :
    (∀ joined desiredKeys : List String,
      (compareTargetJoinedNetworks joined desiredKeys).1.toFinset =
          desiredKeys.toFinset \ joined.toFinset ∧
      (compareTargetJoinedNetworks joined desiredKeys).2.toFinset =
          joined.toFinset \ desiredKeys.toFinset) ∧
    (compareTargetJoinedNetworks ["G1", "G2"] ["G2", "G3"]).1 = ["G3"] ∧
    (compareTargetJoinedNetworks ["G1", "G2"] ["G2", "G3"]).2 = ["G1"] :=
  ⟨fun _ _ => ⟨pySetDiff_toFinset _ _, pySetDiff_toFinset _ _⟩, by decide, by decide⟩

/-- Claim C6: for every pair of desired and actual group sets, the computed
toJoin and toLeave sets are disjoint, and toJoin together with actual and
toLeave covers exactly the groups of either input set. -/
theorem C6_join_leave_partition (joined desiredKeys : List String) :
    (compareTargetJoinedNetworks joined desiredKeys).1.toFinset ∩
        (compareTargetJoinedNetworks joined desiredKeys).2.toFinset = ∅ ∧
    (compareTargetJoinedNetworks joined desiredKeys).1.toFinset ∪ joined.toFinset ∪
        (compareTargetJoinedNetworks joined desiredKeys).2.toFinset =
      desiredKeys.toFinset ∪ joined.toFinset := by
  constructor
  · ext x
    simp only [compareTargetJoinedNetworks, Finset.mem_inter, List.mem_toFinset,
      mem_pySetDiff, Finset.not_mem_empty, iff_false]
    tauto
  · ext x
    simp only [compareTargetJoinedNetworks, Finset.mem_union, List.mem_toFinset,
      mem_pySetDiff]
    tauto

/-- Claim C7: in the remote-API response dispatch of `checkAPIKey` and
`getNodeConfig`, a 403 response maps to the authentication-failure abort
and a 404 response to the not-found abort, each fatal for the group (the
module exits); returning a value happens only on a 2xx (in fact exactly
200) response. -/
theorem C7_status_dispatch :
    (checkAPIKeyResp 403 = .error (.failJson "Unable to authenticate with ZeroTier API!") ∧
     checkAPIKeyResp 404 = .error (.failJson "ZeroTier network does not exist") ∧
     ∀ code b, checkAPIKeyResp code = .ok (some b) → 200 ≤ code ∧ code < 300) ∧
    (∀ body : RemoteMemberRecord,
      getNodeConfigResp 403 body = .error (.failJson "Unable to authenticate with ZeroTier API!") ∧
      getNodeConfigResp 404 body = .error (.failJson "ZeroTier network does not exist") ∧
      ∀ code r, getNodeConfigResp code body = .ok (some r) → 200 ≤ code ∧ code < 300) := by
  refine ⟨⟨rfl, rfl, ?_⟩, fun body => ⟨rfl, rfl, ?_⟩⟩
  · intro code b h
    by_cases h₃ : code = 403
    · simp [checkAPIKeyResp, h₃] at h
    · by_cases h₄ : code = 404
      · simp [checkAPIKeyResp, h₃, h₄] at h
      · by_cases h₂ : code = 200
        · subst h₂; omega
        · simp [checkAPIKeyResp, h₃, h₄, h₂] at h
  · intro code r h
    by_cases h₃ : code = 403
    · simp [getNodeConfigResp, h₃] at h
    · by_cases h₄ : code = 404
      · simp [getNodeConfigResp, h₃, h₄] at h
      · by_cases h₂ : code = 200
        · subst h₂; omega
        · simp [getNodeConfigResp, h₃, h₄, h₂] at h

/-- Witness for C7: status 200 returns a value and lies in the 2xx class. -/
theorem C7_status_dispatch_witness :
    checkAPIKeyResp 200 = .ok (some true) ∧ (200 ≤ 200 ∧ 200 < 300) :=
  ⟨rfl, C7_status_dispatch.1.2.2 200 true rfl⟩

/-- The wait loop with `online == False` performs one sleep per remaining
count and cannot exit early: nothing in its body re-reads the status. -/
theorem waitLoopSleeps_false (m : Nat) :
    ∀ fuel rc, m + 1 - rc = fuel → waitLoopSleeps false m rc = fuel := by
  intro fuel
  induction fuel with
  | zero =>
    intro rc h
    have hgt : ¬ rc ≤ m := by omega
    unfold waitLoopSleeps
    simp [hgt]
  | succ k ih =>
    intro rc h
    have hle : rc ≤ m := by omega
    unfold waitLoopSleeps
    simp only [hle, if_true, Bool.false_eq_true, if_false]
    rw [ih (rc + 1) (by omega)]
    omega

/-- With the stale response reporting offline, the loop sleeps 11 times. -/
theorem waitLoopSleeps_false_init : waitLoopSleeps false 10 0 = 11 :=
  waitLoopSleeps_false 10 11 0 (by norm_num)

/-- Claim C8, evaluated at the failing input of the defect: the node is
still initializing at the one read the code performs and would report
online on any re-read. The embedded `getZeroTierStatus` performs exactly
one endpoint read, sleeps 11 times (2 s each) re-testing the same stale
response, and returns that stale offline status: the loop never polls the
endpoint again, so it can never observe the node coming online. -/
theorem C8_wait_loop_never_rereads :
    (onlineAfterFirstRead 1).online = true ∧
    getZeroTierStatus onlineAfterFirstRead = (⟨false, "93afae2a2d"⟩, 1, 11) := by
  refine ⟨by decide, ?_⟩
  unfold getZeroTierStatus
  have h0 : onlineAfterFirstRead 0 = ⟨false, "93afae2a2d"⟩ := by decide
  rw [h0]
  rw [show (⟨false, "93afae2a2d"⟩ : StatusResp).online = false from rfl]
  rw [waitLoopSleeps_false_init]

/-- Witness for C1 (amended): a fetched record whose name differs from the
node name yields `changed = true` and a write. -/
theorem C1_write_gate_witness :
    Dict.lookup specG.extra "nodedescription:" = some "D" ∧
    buildNodeConfig "N" specG ⟨[], "Old", "D"⟩ false =
      .ok (true, ⟨[], "N", "D"⟩, some ⟨[], "N", "D"⟩) ∧
    (((some (⟨[], "N", "D"⟩ : RemoteMemberRecord)).isSome = true ↔ true = true) ∧
     (true = true ↔
       (false = true ∨ ("Old" : String) ≠ "N" ∨ ("D" : String) ≠ "D"))) :=
  ⟨by decide, by rfl,
   C1_write_gate "N" specG ⟨[], "Old", "D"⟩ false "D" true ⟨[], "N", "D"⟩
     (some ⟨[], "N", "D"⟩) (by decide) (by rfl)⟩

/-- A set difference is empty when the first set is contained in the second. -/
theorem pySetDiff_eq_nil (xs ys : List String) (h : ∀ x ∈ xs, x ∈ ys) :
    pySetDiff xs ys = [] := by
  rw [pySetDiff, List.filter_eq_nil_iff]
  intro x hx
  simp [h x (List.mem_dedup.mp hx)]

/-- On a successful `buildNodeConfigRun`, the write is issued exactly when
the outgoing flag is set, and the flag is monotone in the incoming flag. -/
theorem buildNodeConfigRun_ok (networks : Dict MemberSpec) (env : RunEnv)
    (nodename n : String) (c₀ c : Bool) (w : Option RemoteMemberRecord)
    (h : buildNodeConfigRun networks env nodename n c₀ = .ok (c, w)) :
    (w.isSome = true ↔ c = true) ∧ (c₀ = true → c = true) := by
  unfold buildNodeConfigRun at h
  split at h
  · exact absurd h (by simp)
  · exact absurd h (by simp)
  · rename_i fetched hgq
    split at h
    · exact absurd h (by simp)
    · rename_i spec hl
      split at h
      · exact absurd h (by simp)
      · rename_i c' fin hb
        simp only [Except.ok.injEq, Prod.mk.injEq] at h
        obtain ⟨hcc, hww⟩ := h
        subst hcc
        subst hww
        rcases hd : Dict.lookup spec.extra "nodedescription:" with _ | desc
        · rw [buildNodeConfig_keyError nodename spec fetched c₀ hd] at hb
          exact absurd hb (by simp)
        · rw [buildNodeConfig_char nodename spec fetched c₀ desc hd] at hb
          simp only [Except.ok.injEq, Prod.mk.injEq] at hb
          obtain ⟨hc', hfin, hw⟩ := hb
          have hB : (c₀ || decide (fetched.name ≠ nodename) ||
              decide (fetched.description ≠ desc)) = false := by
            by_contra hB
            simp only [Bool.not_eq_false] at hB
            rw [if_pos hB] at hw
            exact absurd hw (by simp)
          rw [hB] at hc'
          constructor
          · simp [← hc']
          · intro hc₀
            rw [hc₀] at hB
            simp at hB
      · rename_i c' fin r hb
        split at h
        · exact absurd h (by simp)
        · rename_i ob hs
          simp only [Except.ok.injEq, Prod.mk.injEq] at h
          obtain ⟨hcc, hww⟩ := h
          subst hcc
          subst hww
          rcases hd : Dict.lookup spec.extra "nodedescription:" with _ | desc
          · rw [buildNodeConfig_keyError nodename spec fetched c₀ hd] at hb
            exact absurd hb (by simp)
          · rw [buildNodeConfig_char nodename spec fetched c₀ desc hd] at hb
            simp only [Except.ok.injEq, Prod.mk.injEq] at hb
            obtain ⟨hc', hfin, hw⟩ := hb
            have hB : (c₀ || decide (fetched.name ≠ nodename) ||
                decide (fetched.description ≠ desc)) = true := by
              by_contra hB
              rw [if_neg hB] at hw
              exact absurd hw (by simp)
            rw [hB] at hc'
            exact ⟨by simp [← hc'], fun _ => hc'.symm⟩

/-- Through the attribute loop, the final flag is set exactly when it was
set on entry or some write was issued on the way. -/
theorem attrLoop_changed_iff (networks : Dict MemberSpec) (env : RunEnv)
    (nodename : String) :
    ∀ (l : List String) (c₀ : Bool) (acts : List Action) (c : Bool),
      attrLoop networks env nodename l c₀ = (acts, .ok c) →
      (c = true ↔ (c₀ = true ∨ ∃ n r, Action.write n r ∈ acts)) := by
  intro l
  induction l with
  | nil =>
    intro c₀ acts c h
    simp only [attrLoop, Prod.mk.injEq, Except.ok.injEq] at h
    obtain ⟨ha, hc⟩ := h
    subst ha
    subst hc
    simp
  | cons n rest ih =>
    intro c₀ acts c h
    unfold attrLoop at h
    split at h
    · exact absurd h (by simp)
    · rename_i c₁ r heq
      obtain ⟨hiff, hmono⟩ := buildNodeConfigRun_ok networks env nodename n c₀ c₁ _ heq
      rcases hstep : attrLoop networks env nodename rest c₁ with ⟨acts', res⟩
      rw [hstep] at h
      simp only [Prod.mk.injEq] at h
      obtain ⟨ha, hres⟩ := h
      subst ha
      have hrec := ih c₁ acts' c (by rw [hstep, hres])
      have hc₁ : c₁ = true := hiff.mp (by simp)
      have hc : c = true := hrec.mpr (Or.inl hc₁)
      rw [hc]
      exact ⟨fun _ => Or.inr ⟨n, r, List.mem_cons_self _ _⟩, fun _ => rfl⟩
    · rename_i c₁ heq
      obtain ⟨hiff, hmono⟩ := buildNodeConfigRun_ok networks env nodename n c₀ c₁ none heq
      have hrec := ih c₁ acts c h
      have hc₁ : c₁ = false := by
        rcases Bool.eq_false_or_eq_true c₁ with ht | hf
        · exact absurd (hiff.mpr ht) (by simp)
        · exact hf
      have hc₀ : c₀ = false := by
        rcases Bool.eq_false_or_eq_true c₀ with ht | hf
        · rw [hmono ht] at hc₁
          exact absurd hc₁ (by simp)
        · exact hf
      rw [hrec, hc₁, hc₀]

/-- The join loop emits only join actions. -/
theorem joinLoop_no_write (networks : Dict MemberSpec) (env : RunEnv) :
    ∀ (l : List String) (n : String) (r : RemoteMemberRecord),
      Action.write n r ∉ (joinLoop networks env l).1 := by
  intro l
  induction l with
  | nil =>
    intro n r
    intro hmem
    simp [joinLoop] at hmem
  | cons m rest ih =>
    intro n r
    rcases hc : checkAPIKey networks env m with a | o
    · intro hmem
      simp only [joinLoop, hc] at hmem
      simp at hmem
    · intro hmem
      simp only [joinLoop, hc] at hmem
      rcases List.mem_cons.mp hmem with h₁ | h₂
      · exact absurd h₁ (by simp)
      · exact ih n r h₂

/-- The leave loop emits only leave actions. -/
theorem leaveLoop_no_write (networks : Dict MemberSpec) (env : RunEnv) :
    ∀ (l : List String) (n : String) (r : RemoteMemberRecord),
      Action.write n r ∉ (leaveLoop networks env l).1 := by
  intro l
  induction l with
  | nil =>
    intro n r
    intro hmem
    simp [leaveLoop] at hmem
  | cons m rest ih =>
    intro n r
    rcases hc : checkAPIKey networks env m with a | o
    · intro hmem
      simp only [leaveLoop, hc] at hmem
      simp at hmem
    · intro hmem
      simp only [leaveLoop, hc] at hmem
      rcases List.mem_cons.mp hmem with h₁ | h₂
      · exact absurd h₁ (by simp)
      · exact ih n r h₂

/-- A join loop over networks that are all present in the desired mapping
and whose access checks return 200 completes without abort. -/
theorem joinLoop_all_ok (networks : Dict MemberSpec) (env : RunEnv) :
    ∀ l : List String,
      (∀ n ∈ l, Dict.lookup networks n ≠ none ∧ env.accessCode n = 200) →
      (joinLoop networks env l).2 = none := by
  intro l
  induction l with
  | nil => intro _; simp [joinLoop]
  | cons n rest ih =>
    intro hall
    obtain ⟨hlk, hcode⟩ := hall n (List.mem_cons_self n rest)
    rcases hsp : Dict.lookup networks n with _ | spec
    · exact absurd hsp hlk
    · simp only [joinLoop, checkAPIKey, hsp, hcode, checkAPIKeyResp]
      norm_num
      exact ih fun m hm => hall m (List.mem_cons_of_mem _ hm)

/-- Counterexample to claim C3 as stated: with `G1, G2` joined, `G2, G3`
desired and the credential of `G3` rejected (403) on the access check, the
whole module run aborts via `fail_json`: no error is recorded in a result,
the join set is abandoned and the leave of `G1` never happens (the trace
of performed actions is empty). -/
theorem C3_error_isolation_counterexample :
    runMain envAuth "N" netsAuth =
      ([], .error (.failJson "Unable to authenticate with ZeroTier API!")) ∧
    (compareTargetJoinedNetworks envAuth.joinedBefore (Dict.keys netsAuth)).2 = ["G1"] := by
  exact ⟨by rfl, by decide⟩

/-- Claim C3 (amended): a 403 on the access check of the first group of the
join set aborts the entire module run via `fail_json`: the run returns the
authentication failure, performs no action at all, and in particular never
reaches the leave loop — per-group errors are not recorded and remaining
groups are not processed. -/
theorem C3_access_failure_aborts_run (env : RunEnv) (nodename : String)
    (networks : Dict MemberSpec) (n : String) (rest : List String)
    (hadd : (compareTargetJoinedNetworks env.joinedBefore (Dict.keys networks)).1 =
      n :: rest)
    (hcode : env.accessCode n = 403) :
    runMain env nodename networks =
      ([], .error (.failJson "Unable to authenticate with ZeroTier API!")) := by
  have hmem : n ∈ pySetDiff (Dict.keys networks) env.joinedBefore := by
    have : n ∈ (compareTargetJoinedNetworks env.joinedBefore (Dict.keys networks)).1 := by
      rw [hadd]; exact List.mem_cons_self _ _
    exact this
  have hkeys : n ∈ Dict.keys networks := ((mem_pySetDiff _ _ n).mp hmem).1
  rcases hsp : Dict.lookup networks n with _ | spec
  · exact absurd ((Dict.lookup_eq_none_iff _ _).mp hsp) (by simp [hkeys])
  · have hj : joinLoop networks env (n :: rest) =
        ([], some (.failJson "Unable to authenticate with ZeroTier API!")) := by
      simp [joinLoop, checkAPIKey, hsp, hcode, checkAPIKeyResp]
    unfold runMain
    rw [hadd, hj]

/-- Witness for C3 (amended) at the concrete 403 scenario. -/
theorem C3_access_failure_aborts_run_witness :
    (compareTargetJoinedNetworks envAuth.joinedBefore (Dict.keys netsAuth)).1 = ["G3"] ∧
    envAuth.accessCode "G3" = 403 ∧
    runMain envAuth "N" netsAuth =
      ([], .error (.failJson "Unable to authenticate with ZeroTier API!")) :=
  ⟨by decide, by decide,
   C3_access_failure_aborts_run envAuth "N" netsAuth "G3" [] (by decide) (by decide)⟩

/-- Counterexample to claim C4 as stated: a run that joins `G3` (the trace
holds the join) but finds its remote record already in agreement finishes
with `changed = false`, although a group was joined during the run. -/
theorem C4_changed_counterexample :
    runMain envJoinOnly "N" netsJoinOnly = ([Action.join "G3"], .ok false) ∧
    Action.join "G3" ∈ [Action.join "G3"] :=
  ⟨by rfl, by decide⟩

/-- Claim C4 (amended): on a run that completes, the aggregated `changed`
verdict is true iff at least one group's configuration was patched (a
`setNodeConfig` write appears in the trace); groups joined or left during
the run do not contribute to `changed`. -/
theorem C4_changed_iff_patched (env : RunEnv) (nodename : String)
    (networks : Dict MemberSpec) (acts : List Action) (c : Bool)
    (h : runMain env nodename networks = (acts, .ok c)) :
    (c = true ↔ ∃ n r, Action.write n r ∈ acts) := by
  unfold runMain at h
  split at h
  · exact absurd h (by simp)
  · rename_i acts₁ hjl
    split at h
    · exact absurd h (by simp)
    · rename_i acts₂ hll
      rcases hal : attrLoop networks env nodename env.joinedAfter false with ⟨acts₃, res⟩
      rw [hal] at h
      simp only [Prod.mk.injEq] at h
      obtain ⟨ha, hres⟩ := h
      have hiff := attrLoop_changed_iff networks env nodename env.joinedAfter false acts₃ c
        (by rw [hal, hres])
      rw [hiff]
      subst ha
      constructor
      · rintro (h₁ | h₂)
        · exact absurd h₁ (by simp)
        · obtain ⟨n, r, hmem⟩ := h₂
          exact ⟨n, r, by simp [hmem]⟩
      · rintro ⟨n, r, hmem⟩
        rcases List.mem_append.mp hmem with h₁ | h₂
        · rcases List.mem_append.mp h₁ with h₃ | h₄
          · have := joinLoop_no_write networks env
              (compareTargetJoinedNetworks env.joinedBefore (Dict.keys networks)).1 n r
            rw [hjl] at this
            exact absurd h₃ this
          · have := leaveLoop_no_write networks env
              (compareTargetJoinedNetworks env.joinedBefore (Dict.keys networks)).2 n r
            rw [hll] at this
            exact absurd h₄ this
        · exact Or.inr ⟨n, r, h₂⟩

/-- Witness for C4 (amended): the join-only run completes with
`changed = false` and a write-free trace. -/
theorem C4_changed_iff_patched_witness :
    runMain envJoinOnly "N" netsJoinOnly = ([Action.join "G3"], .ok false) ∧
    (false = true ↔ ∃ n r, Action.write n r ∈ [Action.join "G3"]) :=
  ⟨by rfl,
   C4_changed_iff_patched envJoinOnly "N" netsJoinOnly [Action.join "G3"] false (by rfl)⟩

/-- Claim C10: when the joined-network list re-read after the propagation
wait starts with a network absent from the desired mapping, the attribute
phase raises an uncaught `KeyError` for that network (line 221 subscripts
`self.networks[network]` outside any handler) instead of recording a
per-group error and continuing. Stated for a run whose join phase completes
(every join-set network is a key of the mapping with access code 200) and
whose leave set is empty. -/
theorem C10_stray_network_keyerror (env : RunEnv) (nodename : String)
    (networks : Dict MemberSpec) (g : String) (rest : List String)
    (hleave : ∀ n ∈ env.joinedBefore, n ∈ Dict.keys networks)
    (hjoin : ∀ n ∈ pySetDiff (Dict.keys networks) env.joinedBefore,
        Dict.lookup networks n ≠ none ∧ env.accessCode n = 200)
    (hafter : env.joinedAfter = g :: rest)
    (hg : Dict.lookup networks g = none) :
    (runMain env nodename networks).2 = .error (.keyError g) := by
  have hbc : buildNodeConfigRun networks env nodename g false = .error (.keyError g) := by
    unfold buildNodeConfigRun getNodeConfig
    rw [hg]
  have hattr : attrLoop networks env nodename (g :: rest) false =
      ([], .error (.keyError g)) := by
    unfold attrLoop
    rw [hbc]
  have hrm : (compareTargetJoinedNetworks env.joinedBefore (Dict.keys networks)).2 = [] :=
    pySetDiff_eq_nil _ _ hleave
  unfold runMain
  rcases hjl : joinLoop networks env
      (compareTargetJoinedNetworks env.joinedBefore (Dict.keys networks)).1
    with ⟨acts₁, ab₁⟩
  have hab : ab₁ = none := by
    have h₂ := joinLoop_all_ok networks env
      (compareTargetJoinedNetworks env.joinedBefore (Dict.keys networks)).1 hjoin
    rw [hjl] at h₂
    exact h₂
  subst hab
  rw [hrm, hafter]
  show (attrLoop networks env nodename (g :: rest) false).2 = .error (.keyError g)
  rw [hattr]

/-- Witness for C10: an empty desired mapping together with a re-read
joined list containing `G1`. -/
theorem C10_stray_network_keyerror_witness :
    (∀ n ∈ envStray.joinedBefore, n ∈ Dict.keys ([] : Dict MemberSpec)) ∧
    (∀ n ∈ pySetDiff (Dict.keys ([] : Dict MemberSpec)) envStray.joinedBefore,
        Dict.lookup ([] : Dict MemberSpec) n ≠ none ∧ envStray.accessCode n = 200) ∧
    envStray.joinedAfter = ["G1"] ∧
    Dict.lookup ([] : Dict MemberSpec) "G1" = none ∧
    (runMain envStray "N" []).2 = .error (.keyError "G1") :=
  ⟨by decide, by decide, rfl, rfl,
   C10_stray_network_keyerror envStray "N" [] "G1" [] (by decide) (by decide) rfl rfl⟩

end ZeroTier
